import Mathlib

/-!
Verification of the image dimension model and the buffer-image copy validator of
the vulkano repository (src/vulkano/src/image/mod.rs and
src/vulkano/src/command_buffer/validity/copy_image_buffer.rs).

Machine integers are modelled as `Nat` with explicit reduction modulo `2 ^ 32`
wherever Rust `u32` arithmetic can overflow (release-build wrapping semantics;
debug builds panic at the same inputs, so a wrapping input never yields the
mathematically exact value in either build).  `usize` is 64-bit, wide enough
that the one multiplication performed in it never wraps for `u32`-bounded
operands, so it is modelled exactly.
-/

namespace Vulkano

/-- Modulus of Rust `u32` arithmetic. -/
def u32Mod : Nat := 4294967296

/-- Wrapping 32-bit addition (Rust `u32` addition in release builds). -/
def add32 (a b : Nat) : Nat := (a + b) % u32Mod

/-- Wrapping 32-bit subtraction (Rust `u32` subtraction in release builds);
the first operand is assumed reduced below `2 ^ 32`. -/
def sub32 (a b : Nat) : Nat := (a + u32Mod - b % u32Mod) % u32Mod

/-- Wrapping 32-bit multiplication (Rust `u32` multiplication in release builds). -/
def mul32 (a b : Nat) : Nat := (a * b) % u32Mod

/-- The `ImageDimensions` enum of src/vulkano/src/image/mod.rs. -/
inductive ImageDimensions
  | Dim1d (width array_layers : Nat)
  | Dim2d (width height array_layers : Nat)
  | Dim3d (width height depth : Nat)
  deriving DecidableEq, Repr

/-- Accessor `ImageDimensions::width`. -/
def ImageDimensions.width : ImageDimensions → Nat
  | .Dim1d width _ => width
  | .Dim2d width _ _ => width
  | .Dim3d width _ _ => width

/-- Accessor `ImageDimensions::height` (1 for 1D images). -/
def ImageDimensions.height : ImageDimensions → Nat
  | .Dim1d _ _ => 1
  | .Dim2d _ height _ => height
  | .Dim3d _ height _ => height

/-- Accessor `ImageDimensions::depth` (1 for 1D and 2D images). -/
def ImageDimensions.depth : ImageDimensions → Nat
  | .Dim1d _ _ => 1
  | .Dim2d _ _ _ => 1
  | .Dim3d _ _ depth => depth

/-- Accessor `ImageDimensions::array_layers` (1 for 3D images). -/
def ImageDimensions.array_layers : ImageDimensions → Nat
  | .Dim1d _ array_layers => array_layers
  | .Dim2d _ _ array_layers => array_layers
  | .Dim3d _ _ _ => 1

/-- The `u32` product `width * height * depth * array_layers` of
`ImageDimensions::num_texels`, left associated as in the source. -/
def ImageDimensions.num_texels (d : ImageDimensions) : Nat :=
  mul32 (mul32 (mul32 d.width d.height) d.depth) d.array_layers

/-- Fuel-indexed binary length of a natural number; with fuel 32 this is the
bit length of a `u32` value, i.e. `32 - leading_zeros`. -/
def bitLen : Nat → Nat → Nat
  | 0, _ => 0
  | f + 1, n => if n = 0 then 0 else bitLen f (n / 2) + 1

/-- Model of `u32::leading_zeros` for a value below `2 ^ 32`. -/
def leading_zeros32 (n : Nat) : Nat := 32 - bitLen 32 n

/-- The expression `32 - (width | height | depth).leading_zeros()` of
`ImageDimensions::max_mipmaps`. -/
def ImageDimensions.max_mipmaps (d : ImageDimensions) : Nat :=
  32 - leading_zeros32 (d.width ||| d.height ||| d.depth)

/-- The body of `ImageDimensions::mipmap_dimensions`: level 0 is the identity,
a level at or above `max_mipmaps` yields `none`, otherwise each spatial axis is
right-shifted by `level` with a floor of 1 and the layer count is kept. -/
def ImageDimensions.mipmap_dimensions (d : ImageDimensions) (level : Nat) :
    Option ImageDimensions :=
  if level = 0 then some d
  else if level ≥ d.max_mipmaps then none
  else some (match d with
    | .Dim1d width array_layers =>
        .Dim1d (max 1 (width >>> level)) array_layers
    | .Dim2d width height array_layers =>
        .Dim2d (max 1 (width >>> level)) (max 1 (height >>> level)) array_layers
    | .Dim3d width height depth =>
        .Dim3d (max 1 (width >>> level)) (max 1 (height >>> level))
          (max 1 (depth >>> level)))

/-- Well-formedness of the `u32` fields of an `ImageDimensions` value: every
accessor result fits in 32 bits. -/
def wf32 (d : ImageDimensions) : Prop :=
  d.width < u32Mod ∧ d.height < u32Mod ∧ d.depth < u32Mod ∧ d.array_layers < u32Mod

instance (d : ImageDimensions) : Decidable (wf32 d) := by
  unfold wf32
  infer_instance

/-- Per-level dimensions as worded by the specification: the same variant with
each spatial axis replaced by `max 1 (axis >>> level)` and the layer count
passed through unchanged. -/
def mipmapLevelSpec (d : ImageDimensions) (level : Nat) : ImageDimensions :=
  match d with
  | .Dim1d width array_layers =>
      .Dim1d (max 1 (width >>> level)) array_layers
  | .Dim2d width height array_layers =>
      .Dim2d (max 1 (width >>> level)) (max 1 (height >>> level)) array_layers
  | .Dim3d width height depth =>
      .Dim3d (max 1 (width >>> level)) (max 1 (height >>> level))
        (max 1 (depth >>> level))

lemma bitLen_zero (f : Nat) : bitLen f 0 = 0 := by
  cases f <;> simp [bitLen]

lemma bitLen_le (f : Nat) : ∀ n, bitLen f n ≤ f := by
  induction f with
  | zero => intro n; simp [bitLen]
  | succ f ih =>
    intro n
    rw [bitLen]
    split
    · omega
    · have := ih (n / 2)
      omega

lemma bitLen_pos (f n : Nat) (hf : 1 ≤ f) (h : n ≠ 0) : 1 ≤ bitLen f n := by
  cases f with
  | zero => omega
  | succ f =>
    rw [bitLen, if_neg h]
    omega

lemma bitLen_eq_log (f : Nat) : ∀ n, n ≠ 0 → n < 2 ^ f → bitLen f n = Nat.log 2 n + 1 := by
  induction f with
  | zero =>
    intro n h0 h
    omega
  | succ f ih =>
    intro n h0 h
    rw [bitLen, if_neg h0]
    by_cases h2 : n < 2
    · have hn1 : n = 1 := by omega
      subst hn1
      simp [bitLen_zero]
    · have hd0 : n / 2 ≠ 0 := by omega
      have hdlt : n / 2 < 2 ^ f := by
        have hp : (2 : Nat) ^ (f + 1) = 2 ^ f * 2 := by ring
        rw [Nat.div_lt_iff_lt_mul (by omega)]
        omega
      rw [ih (n / 2) hd0 hdlt]
      have hlog : Nat.log 2 (n / 2) = Nat.log 2 n - 1 := Nat.log_div_base 2 n
      have hpos : 0 < Nat.log 2 n := Nat.log_pos (by omega) (by omega)
      omega

lemma le_lor_left (a b : Nat) : a ≤ a ||| b :=
  Nat.le_of_testBit fun i h => by simp [Nat.testBit_lor, h]

lemma le_lor_right (a b : Nat) : b ≤ a ||| b :=
  Nat.le_of_testBit fun i h => by simp [Nat.testBit_lor, h]

lemma log_lor (a b : Nat) (ha : a ≠ 0) :
    Nat.log 2 (a ||| b) = max (Nat.log 2 a) (Nat.log 2 b) := by
  apply le_antisymm
  · have hor0 : a ||| b ≠ 0 := by
      have := le_lor_left a b
      omega
    have h1 : a < 2 ^ (max (Nat.log 2 a) (Nat.log 2 b) + 1) :=
      lt_of_lt_of_le (Nat.lt_pow_succ_log_self (by omega) a)
        (Nat.pow_le_pow_right (by omega) (by omega))
    have h2 : b < 2 ^ (max (Nat.log 2 a) (Nat.log 2 b) + 1) :=
      lt_of_lt_of_le (Nat.lt_pow_succ_log_self (by omega) b)
        (Nat.pow_le_pow_right (by omega) (by omega))
    have := Nat.log_lt_of_lt_pow hor0 (Nat.or_lt_two_pow h1 h2)
    omega
  · exact max_le (Nat.log_mono_right (le_lor_left a b))
      (Nat.log_mono_right (le_lor_right a b))

lemma log_max (a b : Nat) :
    Nat.log 2 (max a b) = max (Nat.log 2 a) (Nat.log 2 b) := by
  rcases le_total a b with h | h
  · rw [max_eq_right h, max_eq_right (Nat.log_mono_right h)]
  · rw [max_eq_left h, max_eq_left (Nat.log_mono_right h)]

lemma one_le_max_mipmaps (d : ImageDimensions) (hw : 1 ≤ d.width) :
    1 ≤ d.max_mipmaps := by
  unfold ImageDimensions.max_mipmaps leading_zeros32
  have hor : d.width ||| d.height ||| d.depth ≠ 0 := by
    have h1 := le_lor_left d.width d.height
    have h2 := le_lor_left (d.width ||| d.height) d.depth
    omega
  have hpos := bitLen_pos 32 _ (by omega) hor
  have hle := bitLen_le 32 (d.width ||| d.height ||| d.depth)
  omega

lemma max_mipmaps_le_32 (d : ImageDimensions) : d.max_mipmaps ≤ 32 := by
  unfold ImageDimensions.max_mipmaps
  omega

lemma max_mipmaps_eq_log (d : ImageDimensions) (h32 : wf32 d)
    (hw : 1 ≤ d.width) (_hh : 1 ≤ d.height) (_hd : 1 ≤ d.depth) :
    d.max_mipmaps = Nat.log 2 (max (max d.width d.height) d.depth) + 1 := by
  obtain ⟨hw32, hh32, hd32, -⟩ := h32
  have hM : u32Mod = 2 ^ 32 := by decide
  have hwlt : d.width < 2 ^ 32 := by omega
  have hhlt : d.height < 2 ^ 32 := by omega
  have hdlt : d.depth < 2 ^ 32 := by omega
  have hor_lt : d.width ||| d.height ||| d.depth < 2 ^ 32 :=
    Nat.or_lt_two_pow (Nat.or_lt_two_pow hwlt hhlt) hdlt
  have hor0 : d.width ||| d.height ||| d.depth ≠ 0 := by
    have h1 := le_lor_left d.width d.height
    have h2 := le_lor_left (d.width ||| d.height) d.depth
    omega
  have hwh0 : d.width ||| d.height ≠ 0 := by
    have := le_lor_left d.width d.height
    omega
  have hlog : Nat.log 2 (d.width ||| d.height ||| d.depth) =
      Nat.log 2 (max (max d.width d.height) d.depth) := by
    rw [log_lor _ _ hwh0, log_lor _ _ (by omega), ← log_max, ← log_max]
  have hlt := Nat.log_lt_of_lt_pow hor0 hor_lt
  rw [hlog] at hlt
  unfold ImageDimensions.max_mipmaps leading_zeros32
  rw [bitLen_eq_log 32 _ hor0 hor_lt, hlog]
  omega

/-- Modelled from the spec: the format metadata table (the `Format` enum and
its `AcceptsPixels` impls) is outside src/.  A value bundles, for one format
and one caller-chosen pixel type, the queries the validator consumes:
`block_dimensions() -> (block_width, block_height)`, `rate()`, and whether
`ensure_accepts` succeeds for that pixel type. -/
structure Format where
  block_width : Nat
  block_height : Nat
  rate : Nat
  accepts : Bool
  deriving DecidableEq, Repr

/-- Modelled from the spec: `Format::BC1_RGBUnormBlock` read as `u8` elements;
4x4 blocks of 8 bytes. -/
def BC1_RGBUnormBlock_u8 : Format := ⟨4, 4, 8, true⟩

/-- Modelled from the spec: `Format::R8G8B8A8Unorm` read as `u8` elements;
uncompressed, 4 bytes per texel. -/
def R8G8B8A8Unorm_u8 : Format := ⟨1, 1, 4, true⟩

/-- Modelled from the spec: `Format::R4G4UnormPack8` read as `u8` elements;
uncompressed, 1 byte per texel. -/
def R4G4UnormPack8_u8 : Format := ⟨1, 1, 1, true⟩

/-- Modelled from the spec: `Format::R8G8B8Uscaled` read as `u8` elements;
uncompressed, 3 bytes per texel. -/
def R8G8B8Uscaled_u8 : Format := ⟨1, 1, 3, true⟩

/-- Modelled from the spec: `Format::R32G32Uint` read as `u8` elements;
uncompressed, 8 bytes per texel. -/
def R32G32Uint_u8 : Format := ⟨1, 1, 8, true⟩

/-- Modelled from the spec: `Format::R32G32Uint` read as `u32` elements;
2 elements per texel. -/
def R32G32Uint_u32 : Format := ⟨1, 1, 2, true⟩

/-- Modelled from the spec: `Format::R32G32Uint` read as packed 2-element
`u32` structures; 1 element per texel. -/
def R32G32Uint_u32x2 : Format := ⟨1, 1, 1, true⟩

/-- Modelled from the spec: `Format::ASTC_8x8UnormBlock` read as `u8`
elements; 8x8 blocks of 16 bytes. -/
def ASTC_8x8UnormBlock_u8 : Format := ⟨8, 8, 16, true⟩

/-- Modelled from the spec: `Format::ASTC_12x12SrgbBlock` read as `u8`
elements; 12x12 blocks of 16 bytes. -/
def ASTC_12x12SrgbBlock_u8 : Format := ⟨12, 12, 16, true⟩

/-- Modelled from the spec: the buffer queries the validator consumes
(`len()` in elements and the two transfer usage flags). -/
structure Buffer where
  len : Nat
  usage_transfer_source : Bool
  usage_transfer_destination : Bool
  deriving DecidableEq, Repr

/-- Modelled from the spec: the two transfer flags of `ImageUsage`. -/
structure ImageUsage where
  transfer_source : Bool
  transfer_destination : Bool
  deriving DecidableEq, Repr

/-- Modelled from the spec: the image queries the validator consumes
(dimensions, format with the caller's pixel type, sample count, usage). -/
structure Image where
  dimensions : ImageDimensions
  format : Format
  samples : Nat
  usage : ImageUsage
  deriving DecidableEq, Repr

/-- Modelled from the spec: the opaque error of the format layer that
`WrongPixelType` wraps. -/
structure IncompatiblePixelsType where
  deriving DecidableEq, Repr

/-- The `CheckCopyBufferImageTy` enum of copy_image_buffer.rs. -/
inductive CheckCopyBufferImageTy
  | BufferToImage
  | ImageToBuffer
  deriving DecidableEq, Repr

/-- The `CheckCopyBufferImageError` enum of copy_image_buffer.rs. -/
inductive CheckCopyBufferImageError
  | SourceMissingTransferUsage
  | DestinationMissingTransferUsage
  | OverlappingRanges
  | UnexpectedMultisampled
  | ImageCoordinatesOutOfRange
  | WrongPixelType (err : IncompatiblePixelsType)
  | BufferTooSmall (required_len actual_len : Nat)
  deriving DecidableEq, Repr

instance {ε α : Type} [DecidableEq ε] [DecidableEq α] : DecidableEq (Except ε α)
  | .error a, .error b =>
    if h : a = b then .isTrue (by rw [h]) else .isFalse (by simp [h])
  | .error _, .ok _ => .isFalse (by simp)
  | .ok _, .error _ => .isFalse (by simp)
  | .ok a, .ok b =>
    if h : a = b then .isTrue (by rw [h]) else .isFalse (by simp [h])

/-- The function `required_len_for_format` of copy_image_buffer.rs.
`num_blocks` is the `u32` product
`(s0 + bw - 1) / bw * ((s1 + bh - 1) / bh) * s2 * layers` (wrapping in
release builds); the final multiplication by `rate` is performed in `usize`
after widening casts, hence exactly. -/
def required_len_for_format (format : Format) (image_size : Nat × Nat × Nat)
    (image_num_layers : Nat) : Nat :=
  let num_blocks :=
    mul32 (mul32 (mul32 (sub32 (add32 image_size.1 format.block_width) 1 / format.block_width)
      (sub32 (add32 image_size.2.1 format.block_height) 1 / format.block_height))
      image_size.2.2) image_num_layers
  num_blocks * format.rate

/-- The function `check_copy_buffer_image` of copy_image_buffer.rs.  The
cross-device `assert_eq` precondition is outside the model (it aborts rather
than returning); everything after it is translated check for check. -/
def check_copy_buffer_image (buffer : Buffer) (image : Image)
    (ty : CheckCopyBufferImageTy) (image_offset image_size : Nat × Nat × Nat)
    (image_first_layer image_num_layers image_mipmap : Nat) :
    Except CheckCopyBufferImageError Unit :=
  match (match ty with
    | CheckCopyBufferImageTy.BufferToImage =>
        if buffer.usage_transfer_source = false then
          some CheckCopyBufferImageError.SourceMissingTransferUsage
        else if image.usage.transfer_destination = false then
          some CheckCopyBufferImageError.DestinationMissingTransferUsage
        else none
    | CheckCopyBufferImageTy.ImageToBuffer =>
        if image.usage.transfer_source = false then
          some CheckCopyBufferImageError.SourceMissingTransferUsage
        else if buffer.usage_transfer_destination = false then
          some CheckCopyBufferImageError.DestinationMissingTransferUsage
        else none) with
  | some e => Except.error e
  | none =>
    if image.samples ≠ 1 then
      Except.error CheckCopyBufferImageError.UnexpectedMultisampled
    else
      match image.dimensions.mipmap_dimensions image_mipmap with
      | none => Except.error CheckCopyBufferImageError.ImageCoordinatesOutOfRange
      | some image_dimensions =>
        if add32 image_first_layer image_num_layers > image_dimensions.array_layers then
          Except.error CheckCopyBufferImageError.ImageCoordinatesOutOfRange
        else if add32 image_offset.1 image_size.1 > image_dimensions.width then
          Except.error CheckCopyBufferImageError.ImageCoordinatesOutOfRange
        else if add32 image_offset.2.1 image_size.2.1 > image_dimensions.height then
          Except.error CheckCopyBufferImageError.ImageCoordinatesOutOfRange
        else if add32 image_offset.2.2 image_size.2.2 > image_dimensions.depth then
          Except.error CheckCopyBufferImageError.ImageCoordinatesOutOfRange
        else if image.format.accepts = false then
          Except.error (CheckCopyBufferImageError.WrongPixelType ⟨⟩)
        else
          let required_len := required_len_for_format image.format image_size image_num_layers
          if required_len > buffer.len then
            Except.error (CheckCopyBufferImageError.BufferTooSmall required_len buffer.len)
          else
            Except.ok ()

lemma ceil32_eq (s b : Nat) (hb : 1 ≤ b) (h : s + b ≤ u32Mod) :
    sub32 (add32 s b) 1 / b = (s + b - 1) / b := by
  have hM : 4294967296 = u32Mod := rfl
  unfold add32 sub32
  rcases Nat.lt_or_ge (s + b) u32Mod with hlt | hge
  · rw [Nat.mod_eq_of_lt hlt]
    have h1 : (1 : Nat) % u32Mod = 1 := by decide
    rw [h1]
    have : s + b + u32Mod - 1 = (s + b - 1) + u32Mod := by omega
    rw [this, Nat.add_mod_right, Nat.mod_eq_of_lt (by omega)]
  · have heq : s + b = u32Mod := by omega
    rw [heq, Nat.mod_self]
    have h1 : (1 : Nat) % u32Mod = 1 := by decide
    rw [h1]
    have h2 : 0 + u32Mod - 1 = u32Mod - 1 := by omega
    rw [h2, Nat.mod_eq_of_lt (by omega)]

lemma mul32_chain (a b c d : Nat) :
    mul32 (mul32 (mul32 a b) c) d = a * b * c * d % u32Mod := by
  unfold mul32
  calc a * b % u32Mod * c % u32Mod * d % u32Mod
      = a * b % u32Mod * c * d % u32Mod := by rw [Nat.mod_mul_mod]
    _ = a * b % u32Mod * (c * d) % u32Mod := by rw [mul_assoc]
    _ = a * b * (c * d) % u32Mod := by rw [Nat.mod_mul_mod]
    _ = a * b * c * d % u32Mod := by rw [← mul_assoc]

lemma num_blocks_mod_eq (format : Format) (s : Nat × Nat × Nat) (L : Nat)
    (hbw : 1 ≤ format.block_width) (hbh : 1 ≤ format.block_height)
    (h1 : s.1 + format.block_width ≤ u32Mod)
    (h2 : s.2.1 + format.block_height ≤ u32Mod) :
    mul32 (mul32 (mul32 (sub32 (add32 s.1 format.block_width) 1 / format.block_width)
        (sub32 (add32 s.2.1 format.block_height) 1 / format.block_height))
        s.2.2) L =
      (s.1 + format.block_width - 1) / format.block_width *
        ((s.2.1 + format.block_height - 1) / format.block_height) * s.2.2 * L % u32Mod := by
  rw [ceil32_eq _ _ hbw h1, ceil32_eq _ _ hbh h2, mul32_chain]

/-- Value of `required_len_for_format` in terms of exact arithmetic: the
`u32` block product reduced modulo `2 ^ 32`, then multiplied exactly by the
rate. -/
lemma required_len_mod_eq (format : Format) (s : Nat × Nat × Nat) (L : Nat)
    (hbw : 1 ≤ format.block_width) (hbh : 1 ≤ format.block_height)
    (h1 : s.1 + format.block_width ≤ u32Mod)
    (h2 : s.2.1 + format.block_height ≤ u32Mod) :
    required_len_for_format format s L =
      ((s.1 + format.block_width - 1) / format.block_width *
        ((s.2.1 + format.block_height - 1) / format.block_height) * s.2.2 * L % u32Mod) *
        format.rate := by
  unfold required_len_for_format
  rw [num_blocks_mod_eq format s L hbw hbh h1 h2]

/-- When every factor product stays below `2 ^ 32`, `required_len_for_format`
computes the exact block count times rate. -/
lemma required_len_no_overflow (format : Format) (s : Nat × Nat × Nat) (L : Nat)
    (hbw : 1 ≤ format.block_width) (hbh : 1 ≤ format.block_height)
    (h1 : s.1 + format.block_width ≤ u32Mod)
    (h2 : s.2.1 + format.block_height ≤ u32Mod)
    (hprod : (s.1 + format.block_width - 1) / format.block_width *
        ((s.2.1 + format.block_height - 1) / format.block_height) * s.2.2 * L < u32Mod) :
    required_len_for_format format s L =
      (s.1 + format.block_width - 1) / format.block_width *
        ((s.2.1 + format.block_height - 1) / format.block_height) * s.2.2 * L *
        format.rate := by
  rw [required_len_mod_eq format s L hbw hbh h1 h2, Nat.mod_eq_of_lt hprod]

/-- C2: for every `ImageDimensions` with all spatial axes at least 1,
`mipmap_dimensions 0` returns the dimensions unchanged; for `1 ≤ level <
max_mipmaps`, it returns `some` of a value of the same variant whose spatial
axes are `max 1 (axis >>> level)` with the layer count passed through
unchanged; and for `level ≥ max_mipmaps` it returns `none`. -/
theorem mipmap_dimensions_spec :
    ∀ d : ImageDimensions, wf32 d → 1 ≤ d.width → 1 ≤ d.height → 1 ≤ d.depth →
      (d.mipmap_dimensions 0 = some d ∧
       (∀ l, 1 ≤ l → l < d.max_mipmaps →
         d.mipmap_dimensions l = some (mipmapLevelSpec d l)) ∧
       (∀ l, d.max_mipmaps ≤ l → d.mipmap_dimensions l = none)) := by
  intro d _ hw _ _
  refine ⟨?_, ?_, ?_⟩
  · simp [ImageDimensions.mipmap_dimensions]
  · intro l h1 h2
    unfold ImageDimensions.mipmap_dimensions
    rw [if_neg (by omega), if_neg (by omega)]
    cases d <;> rfl
  · intro l hl
    have := one_le_max_mipmaps d hw
    unfold ImageDimensions.mipmap_dimensions
    rw [if_neg (by omega), if_pos (by omega)]

/-- Witness for C2 at the 283x175 2D image of the test suite: level 4 gives
17x10 with the layer count preserved. -/
theorem mipmap_dimensions_spec_witness :
    (ImageDimensions.Dim2d 283 175 1).mipmap_dimensions 4 =
      some (ImageDimensions.Dim2d 17 10 1) := by
  have h := mipmap_dimensions_spec (ImageDimensions.Dim2d 283 175 1)
    (by decide) (by decide) (by decide) (by decide)
  rw [h.2.1 4 (by decide) (by decide)]
  decide

/-- C3: for every `ImageDimensions` whose accessor axes are all at least 1,
`max_mipmaps` equals `log2 (max width height depth) + 1`, equivalently
32 minus the leading zero count of `width ||| height ||| depth`; it is always
at least 1; and it takes the documented values on the concrete shapes
(512x512 gives 10, 2x1 gives 2, 2x3 gives 2, 1x1x1 gives 1). -/
theorem max_mipmaps_spec :
    (∀ d : ImageDimensions, wf32 d → 1 ≤ d.width → 1 ≤ d.height → 1 ≤ d.depth →
      d.max_mipmaps = Nat.log 2 (max (max d.width d.height) d.depth) + 1 ∧
      d.max_mipmaps = 32 - leading_zeros32 (d.width ||| d.height ||| d.depth) ∧
      1 ≤ d.max_mipmaps) ∧
    (ImageDimensions.Dim2d 512 512 1).max_mipmaps = 10 ∧
    (ImageDimensions.Dim2d 2 1 1).max_mipmaps = 2 ∧
    (ImageDimensions.Dim2d 2 3 1).max_mipmaps = 2 ∧
    (ImageDimensions.Dim3d 1 1 1).max_mipmaps = 1 := by
  refine ⟨?_, by decide, by decide, by decide, by decide⟩
  intro d h32 hw hh hd
  exact ⟨max_mipmaps_eq_log d h32 hw hh hd, rfl, one_le_max_mipmaps d hw⟩

/-- Witness for C3 at the 512x512 2D image. -/
theorem max_mipmaps_spec_witness :
    (ImageDimensions.Dim2d 512 512 1).max_mipmaps =
      Nat.log 2 (max (max (ImageDimensions.Dim2d 512 512 1).width
        (ImageDimensions.Dim2d 512 512 1).height)
        (ImageDimensions.Dim2d 512 512 1).depth) + 1 :=
  (max_mipmaps_spec.1 (ImageDimensions.Dim2d 512 512 1)
    (by decide) (by decide) (by decide) (by decide)).1

/-- C10: on every path of `mipmap_dimensions` that performs a shift (level
nonzero and below `max_mipmaps`), the shift amount is strictly below the
32-bit operand width, since `max_mipmaps` never exceeds 32. -/
theorem mipmap_shift_lt_32 :
    ∀ (d : ImageDimensions) (level : Nat), wf32 d →
      1 ≤ d.width → 1 ≤ d.height → 1 ≤ d.depth →
      level ≠ 0 → level < d.max_mipmaps → level < 32 := by
  intro d level _ _ _ _ _ hlt
  have := max_mipmaps_le_32 d
  omega

/-- Witness for C10 at level 5 of the 512x512 2D image. -/
theorem mipmap_shift_lt_32_witness :
    5 < (ImageDimensions.Dim2d 512 512 1).max_mipmaps ∧ (5 : Nat) < 32 :=
  ⟨by decide, mipmap_shift_lt_32 (ImageDimensions.Dim2d 512 512 1) 5
    (by decide) (by decide) (by decide) (by decide) (by decide) (by decide)⟩

set_option maxHeartbeats 2000000 in
/-- C9: no execution path of `check_copy_buffer_image` returns the
`OverlappingRanges` error variant. -/
theorem overlapping_ranges_never_returned :
    ∀ (buffer : Buffer) (image : Image) (ty : CheckCopyBufferImageTy)
      (image_offset image_size : Nat × Nat × Nat)
      (image_first_layer image_num_layers image_mipmap : Nat),
      check_copy_buffer_image buffer image ty image_offset image_size
          image_first_layer image_num_layers image_mipmap ≠
        Except.error CheckCopyBufferImageError.OverlappingRanges := by
  intro b i ty off sz fl nl mip
  obtain ⟨len, bs, bd⟩ := b
  obtain ⟨dims, fmt, smp, us, ud⟩ := i
  cases ty <;> cases bs <;> cases bd <;> cases us <;> cases ud <;>
    simp only [check_copy_buffer_image] <;> (repeat' split) <;> (try simp_all)
  all_goals (rename_i e heq
             subst heq
             simp)

/-- Witness for C9 at a concrete in-bounds buffer-to-image copy. -/
theorem overlapping_ranges_never_returned_witness :
    check_copy_buffer_image ⟨4, true, true⟩
      ⟨ImageDimensions.Dim2d 2 2 1, R4G4UnormPack8_u8, 1, ⟨true, true⟩⟩
      CheckCopyBufferImageTy.BufferToImage (0, 0, 0) (2, 2, 1) 0 1 0 ≠
      Except.error CheckCopyBufferImageError.OverlappingRanges :=
  overlapping_ranges_never_returned ⟨4, true, true⟩
    ⟨ImageDimensions.Dim2d 2 2 1, R4G4UnormPack8_u8, 1, ⟨true, true⟩⟩
    CheckCopyBufferImageTy.BufferToImage (0, 0, 0) (2, 2, 1) 0 1 0

/-- C7: the usage-flag check branches on the operation type before the
multisample, coordinate and capacity checks: for buffer-to-image copies, a
buffer without transfer-source usage fails with `SourceMissingTransferUsage`
and an image without transfer-destination usage fails with
`DestinationMissingTransferUsage`, regardless of all other arguments; for
image-to-buffer copies, the image plays the source role and the buffer the
destination role. -/
theorem usage_check_spec :
    ∀ (buffer : Buffer) (image : Image) (image_offset image_size : Nat × Nat × Nat)
      (image_first_layer image_num_layers image_mipmap : Nat),
      (buffer.usage_transfer_source = false →
        check_copy_buffer_image buffer image CheckCopyBufferImageTy.BufferToImage
            image_offset image_size image_first_layer image_num_layers image_mipmap =
          Except.error CheckCopyBufferImageError.SourceMissingTransferUsage) ∧
      (buffer.usage_transfer_source = true → image.usage.transfer_destination = false →
        check_copy_buffer_image buffer image CheckCopyBufferImageTy.BufferToImage
            image_offset image_size image_first_layer image_num_layers image_mipmap =
          Except.error CheckCopyBufferImageError.DestinationMissingTransferUsage) ∧
      (image.usage.transfer_source = false →
        check_copy_buffer_image buffer image CheckCopyBufferImageTy.ImageToBuffer
            image_offset image_size image_first_layer image_num_layers image_mipmap =
          Except.error CheckCopyBufferImageError.SourceMissingTransferUsage) ∧
      (image.usage.transfer_source = true → buffer.usage_transfer_destination = false →
        check_copy_buffer_image buffer image CheckCopyBufferImageTy.ImageToBuffer
            image_offset image_size image_first_layer image_num_layers image_mipmap =
          Except.error CheckCopyBufferImageError.DestinationMissingTransferUsage) := by
  intro b i off sz fl nl mip
  refine ⟨fun h => ?_, fun h1 h2 => ?_, fun h => ?_, fun h1 h2 => ?_⟩ <;>
    simp [check_copy_buffer_image, *]

/-- Witness for C7: a buffer-to-image copy with a buffer lacking transfer
source usage, all bounds otherwise valid. -/
theorem usage_check_spec_witness :
    check_copy_buffer_image ⟨10, false, false⟩
      ⟨ImageDimensions.Dim2d 4 4 1, R8G8B8A8Unorm_u8, 1, ⟨true, true⟩⟩
      CheckCopyBufferImageTy.BufferToImage (0, 0, 0) (1, 1, 1) 0 1 0 =
      Except.error CheckCopyBufferImageError.SourceMissingTransferUsage :=
  (usage_check_spec ⟨10, false, false⟩
    ⟨ImageDimensions.Dim2d 4 4 1, R8G8B8A8Unorm_u8, 1, ⟨true, true⟩⟩
    (0, 0, 0) (1, 1, 1) 0 1 0).1 rfl

/-- C1 counterexample: at image size 65536 x 65536 the `u32` block product of
`required_len_for_format` wraps to 0 (release builds; debug builds panic), so
the result is not the stated ceiling-division product. -/
theorem required_len_formula_cex :
    ¬ (required_len_for_format R8G8B8A8Unorm_u8 (65536, 65536, 1) 1 =
        (65536 + R8G8B8A8Unorm_u8.block_width - 1) / R8G8B8A8Unorm_u8.block_width *
          ((65536 + R8G8B8A8Unorm_u8.block_height - 1) / R8G8B8A8Unorm_u8.block_height) *
          1 * 1 * R8G8B8A8Unorm_u8.rate) := by
  decide

/-- C1 (amended): whenever the `u32` intermediate computations do not
overflow (each `size + block` sum and the full block product stay within
32 bits), `required_len_for_format` equals
`ceil(s0 / bw) * ceil(s1 / bh) * s2 * layers * rate` with ceiling division
`(size + block - 1) / block`; and it returns the documented values on the
concrete format and size cases of the test suite. -/
theorem required_len_for_format_spec :
    (∀ (format : Format) (s : Nat × Nat × Nat) (L : Nat),
      1 ≤ format.block_width → 1 ≤ format.block_height →
      s.1 + format.block_width ≤ u32Mod →
      s.2.1 + format.block_height ≤ u32Mod →
      (s.1 + format.block_width - 1) / format.block_width *
        ((s.2.1 + format.block_height - 1) / format.block_height) * s.2.2 * L < u32Mod →
      required_len_for_format format s L =
        (s.1 + format.block_width - 1) / format.block_width *
          ((s.2.1 + format.block_height - 1) / format.block_height) * s.2.2 * L *
          format.rate) ∧
    required_len_for_format BC1_RGBUnormBlock_u8 (2048, 2048, 1) 1 = 2097152 ∧
    required_len_for_format R8G8B8A8Unorm_u8 (2048, 2048, 1) 1 = 16777216 ∧
    required_len_for_format R32G32Uint_u8 (512, 512, 1) 1 = 2097152 ∧
    required_len_for_format R32G32Uint_u32 (512, 512, 1) 1 = 524288 ∧
    required_len_for_format R32G32Uint_u32x2 (512, 512, 1) 1 = 262144 ∧
    required_len_for_format ASTC_8x8UnormBlock_u8 (512, 512, 1) 1 = 65536 ∧
    required_len_for_format ASTC_12x12SrgbBlock_u8 (512, 512, 1) 1 = 29584 := by
  refine ⟨?_, by decide, by decide, by decide, by decide, by decide, by decide, by decide⟩
  intro format s L hbw hbh h1 h2 hprod
  exact required_len_no_overflow format s L hbw hbh h1 h2 hprod

/-- Witness for C1 at the BC1 case of the test suite. -/
theorem required_len_for_format_spec_witness :
    required_len_for_format BC1_RGBUnormBlock_u8 (2048, 2048, 1) 1 =
      (2048 + BC1_RGBUnormBlock_u8.block_width - 1) / BC1_RGBUnormBlock_u8.block_width *
        ((2048 + BC1_RGBUnormBlock_u8.block_height - 1) / BC1_RGBUnormBlock_u8.block_height) *
        1 * 1 * BC1_RGBUnormBlock_u8.rate :=
  required_len_for_format_spec.1 BC1_RGBUnormBlock_u8 (2048, 2048, 1) 1
    (by decide) (by decide) (by decide) (by decide) (by decide)

/-- C8 counterexample: for an uncompressed (1x1 block) format the claimed
exact product fails once the `u32` texel product wraps: at 65536 x 65536 the
code yields 0 (release builds; debug builds panic), not `2 ^ 32 * rate`. -/
theorem uncompressed_required_len_cex :
    R4G4UnormPack8_u8.block_width = 1 ∧ R4G4UnormPack8_u8.block_height = 1 ∧
    ¬ (required_len_for_format R4G4UnormPack8_u8 (65536, 65536, 1) 1 =
        65536 * 65536 * 1 * 1 * R4G4UnormPack8_u8.rate) := by
  decide

/-- C8 (amended): for a format with 1x1 blocks, whenever the texel product
`width * height * depth * layers` stays within 32 bits,
`required_len_for_format` equals that product times the rate exactly, with
no ceiling effect. -/
theorem uncompressed_required_len_spec :
    ∀ (format : Format) (s : Nat × Nat × Nat) (L : Nat),
      format.block_width = 1 → format.block_height = 1 →
      s.1 < u32Mod → s.2.1 < u32Mod →
      s.1 * s.2.1 * s.2.2 * L < u32Mod →
      required_len_for_format format s L = s.1 * s.2.1 * s.2.2 * L * format.rate := by
  intro format s L hbw hbh h1 h2 hprod
  have e1 : (s.1 + format.block_width - 1) / format.block_width = s.1 := by
    rw [hbw]
    simp
  have e2 : (s.2.1 + format.block_height - 1) / format.block_height = s.2.1 := by
    rw [hbh]
    simp
  rw [required_len_no_overflow format s L (by omega) (by omega) (by omega) (by omega)
    (by rw [e1, e2]; exact hprod), e1, e2]

/-- Witness for C8 at the R8G8B8A8 case of the test suite. -/
theorem uncompressed_required_len_spec_witness :
    required_len_for_format R8G8B8A8Unorm_u8 (2048, 2048, 1) 1 =
      2048 * 2048 * 1 * 1 * R8G8B8A8Unorm_u8.rate :=
  uncompressed_required_len_spec R8G8B8A8Unorm_u8 (2048, 2048, 1) 1
    (by decide) (by decide) (by decide) (by decide) (by decide)

/-- C6 counterexample: `num_texels` is a `u32` product, not a widened one:
at 65536 x 65536 x 2 it wraps to 0 (release builds; debug builds panic)
instead of the exact product `2 ^ 33`. -/
theorem num_texels_overflow_cex :
    (ImageDimensions.Dim3d 65536 65536 2).num_texels = 0 ∧
    ¬ ((ImageDimensions.Dim3d 65536 65536 2).num_texels =
        (ImageDimensions.Dim3d 65536 65536 2).width *
          (ImageDimensions.Dim3d 65536 65536 2).height *
          (ImageDimensions.Dim3d 65536 65536 2).depth *
          (ImageDimensions.Dim3d 65536 65536 2).array_layers) := by
  decide

/-- C6 (amended): `num_texels` and the block product of
`required_len_for_format` are computed in wrapping 32-bit arithmetic (their
value is the exact product reduced modulo `2 ^ 32`); only the final
multiplication by the rate is performed in the wider `usize`, where it is
exact and stays below `2 ^ 64` for any 32-bit rate. -/
theorem accumulator_width_spec :
    (∀ d : ImageDimensions,
      d.num_texels = d.width * d.height * d.depth * d.array_layers % u32Mod) ∧
    (∀ (format : Format) (s : Nat × Nat × Nat) (L : Nat),
      1 ≤ format.block_width → 1 ≤ format.block_height →
      s.1 + format.block_width ≤ u32Mod →
      s.2.1 + format.block_height ≤ u32Mod →
      required_len_for_format format s L =
        ((s.1 + format.block_width - 1) / format.block_width *
          ((s.2.1 + format.block_height - 1) / format.block_height) * s.2.2 * L % u32Mod) *
          format.rate ∧
      (format.rate < u32Mod → required_len_for_format format s L < 2 ^ 64)) := by
  constructor
  · intro d
    exact mul32_chain d.width d.height d.depth d.array_layers
  · intro format s L hbw hbh h1 h2
    refine ⟨required_len_mod_eq format s L hbw hbh h1 h2, fun hrate => ?_⟩
    rw [required_len_mod_eq format s L hbw hbh h1 h2]
    have hm : (s.1 + format.block_width - 1) / format.block_width *
        ((s.2.1 + format.block_height - 1) / format.block_height) * s.2.2 * L % u32Mod <
        u32Mod := Nat.mod_lt _ (by decide)
    calc (s.1 + format.block_width - 1) / format.block_width *
          ((s.2.1 + format.block_height - 1) / format.block_height) * s.2.2 * L % u32Mod *
          format.rate
        ≤ (u32Mod - 1) * (u32Mod - 1) := Nat.mul_le_mul (by omega) (by omega)
      _ < 2 ^ 64 := by decide

/-- Witness for C6 at the BC1 case. -/
theorem accumulator_width_spec_witness :
    required_len_for_format BC1_RGBUnormBlock_u8 (2048, 2048, 1) 1 =
      ((2048 + BC1_RGBUnormBlock_u8.block_width - 1) / BC1_RGBUnormBlock_u8.block_width *
        ((2048 + BC1_RGBUnormBlock_u8.block_height - 1) / BC1_RGBUnormBlock_u8.block_height) *
        1 * 1 % u32Mod) * BC1_RGBUnormBlock_u8.rate :=
  (accumulator_width_spec.2 BC1_RGBUnormBlock_u8 (2048, 2048, 1) 1
    (by decide) (by decide) (by decide) (by decide)).1

/-- C4 counterexample: with `u32` wrapping addition, a layer range whose
mathematical sum exceeds the resolved mip level's layer count can slip
through: first layer `u32::MAX` with 2 layers wraps to 1 and the call
succeeds instead of failing with `ImageCoordinatesOutOfRange` (debug builds
panic on the same input). -/
theorem coords_out_of_range_cex :
    (ImageDimensions.Dim2d 1 1 1).mipmap_dimensions 0 =
      some (ImageDimensions.Dim2d 1 1 1) ∧
    4294967295 + 2 > (ImageDimensions.Dim2d 1 1 1).array_layers ∧
    check_copy_buffer_image ⟨2, true, true⟩
      ⟨ImageDimensions.Dim2d 1 1 1, R4G4UnormPack8_u8, 1, ⟨true, true⟩⟩
      CheckCopyBufferImageTy.BufferToImage (0, 0, 0) (1, 1, 1) 4294967295 2 0 =
      Except.ok () := by
  refine ⟨by decide, by decide, by decide⟩

/-- C4 (amended): once the usage and multisample checks pass and the mip
level resolves, and provided the `u32` sums `first_layer + num_layers` and
`offset + size` do not overflow 32 bits, any call whose layer range exceeds
the resolved level's layer count, or whose offset plus size exceeds the
resolved extent on any single axis (independently of the other axes), fails
with `ImageCoordinatesOutOfRange`. -/
theorem coords_out_of_range_spec :
    ∀ (buffer : Buffer) (image : Image) (ty : CheckCopyBufferImageTy)
      (image_offset image_size : Nat × Nat × Nat)
      (image_first_layer image_num_layers image_mipmap : Nat)
      (dims : ImageDimensions),
      (ty = CheckCopyBufferImageTy.BufferToImage →
        buffer.usage_transfer_source = true ∧ image.usage.transfer_destination = true) →
      (ty = CheckCopyBufferImageTy.ImageToBuffer →
        image.usage.transfer_source = true ∧ buffer.usage_transfer_destination = true) →
      image.samples = 1 →
      image.dimensions.mipmap_dimensions image_mipmap = some dims →
      image_first_layer + image_num_layers < u32Mod →
      image_offset.1 + image_size.1 < u32Mod →
      image_offset.2.1 + image_size.2.1 < u32Mod →
      image_offset.2.2 + image_size.2.2 < u32Mod →
      (image_first_layer + image_num_layers > dims.array_layers ∨
       image_offset.1 + image_size.1 > dims.width ∨
       image_offset.2.1 + image_size.2.1 > dims.height ∨
       image_offset.2.2 + image_size.2.2 > dims.depth) →
      check_copy_buffer_image buffer image ty image_offset image_size
          image_first_layer image_num_layers image_mipmap =
        Except.error CheckCopyBufferImageError.ImageCoordinatesOutOfRange := by
  intro b i ty off sz fl nl mip dims hb2i hi2b hsmp hmip hfl h1 h2 h3 hviol
  have ha1 : add32 fl nl = fl + nl := Nat.mod_eq_of_lt hfl
  have ha2 : add32 off.1 sz.1 = off.1 + sz.1 := Nat.mod_eq_of_lt h1
  have ha3 : add32 off.2.1 sz.2.1 = off.2.1 + sz.2.1 := Nat.mod_eq_of_lt h2
  have ha4 : add32 off.2.2 sz.2.2 = off.2.2 + sz.2.2 := Nat.mod_eq_of_lt h3
  unfold check_copy_buffer_image
  cases ty
  · obtain ⟨hbs, hid⟩ := hb2i rfl
    simp only [hbs, hid, hsmp, hmip, ha1, ha2, ha3, ha4]
    simp only [Bool.true_eq_false, if_false, ne_eq, not_true_eq_false, if_neg]
    split_ifs <;> first | rfl | omega
  · obtain ⟨his, hbd⟩ := hi2b rfl
    simp only [his, hbd, hsmp, hmip, ha1, ha2, ha3, ha4]
    simp only [Bool.true_eq_false, if_false, ne_eq, not_true_eq_false, if_neg]
    split_ifs <;> first | rfl | omega

/-- Witness for C4: a copy whose height range exceeds the resolved extent
while width, depth and the layer range are in bounds. -/
theorem coords_out_of_range_spec_witness :
    check_copy_buffer_image ⟨100, true, true⟩
      ⟨ImageDimensions.Dim3d 8 8 8, R4G4UnormPack8_u8, 1, ⟨true, true⟩⟩
      CheckCopyBufferImageTy.BufferToImage (0, 4, 0) (4, 8, 2) 0 1 0 =
      Except.error CheckCopyBufferImageError.ImageCoordinatesOutOfRange :=
  coords_out_of_range_spec ⟨100, true, true⟩
    ⟨ImageDimensions.Dim3d 8 8 8, R4G4UnormPack8_u8, 1, ⟨true, true⟩⟩
    CheckCopyBufferImageTy.BufferToImage (0, 4, 0) (4, 8, 2) 0 1 0
    (ImageDimensions.Dim3d 8 8 8)
    (fun _ => ⟨rfl, rfl⟩) (fun h => by cases h) rfl (by decide)
    (by decide) (by decide) (by decide) (by decide)
    (Or.inr (Or.inr (Or.inl (by decide))))

/-- C5: for every otherwise-valid copy request (usage, multisample, mip
resolution, layer and spatial bounds, pixel-type acceptance all passing), a
buffer of exactly `required_len_for_format` elements is accepted, a buffer
one element shorter is rejected with `BufferTooSmall` carrying the computed
required length and the actual length, and the `BufferTooSmall` error is
returned exactly when the required length exceeds the buffer length. -/
theorem buffer_capacity_spec :
    ∀ (buffer : Buffer) (image : Image) (ty : CheckCopyBufferImageTy)
      (image_offset image_size : Nat × Nat × Nat)
      (image_first_layer image_num_layers image_mipmap : Nat)
      (dims : ImageDimensions),
      (ty = CheckCopyBufferImageTy.BufferToImage →
        buffer.usage_transfer_source = true ∧ image.usage.transfer_destination = true) →
      (ty = CheckCopyBufferImageTy.ImageToBuffer →
        image.usage.transfer_source = true ∧ buffer.usage_transfer_destination = true) →
      image.samples = 1 →
      image.dimensions.mipmap_dimensions image_mipmap = some dims →
      ¬ add32 image_first_layer image_num_layers > dims.array_layers →
      ¬ add32 image_offset.1 image_size.1 > dims.width →
      ¬ add32 image_offset.2.1 image_size.2.1 > dims.height →
      ¬ add32 image_offset.2.2 image_size.2.2 > dims.depth →
      image.format.accepts = true →
      ((buffer.len = required_len_for_format image.format image_size image_num_layers →
        check_copy_buffer_image buffer image ty image_offset image_size
            image_first_layer image_num_layers image_mipmap = Except.ok ()) ∧
       (buffer.len + 1 = required_len_for_format image.format image_size image_num_layers →
        check_copy_buffer_image buffer image ty image_offset image_size
            image_first_layer image_num_layers image_mipmap =
          Except.error (CheckCopyBufferImageError.BufferTooSmall
            (required_len_for_format image.format image_size image_num_layers)
            buffer.len)) ∧
       (check_copy_buffer_image buffer image ty image_offset image_size
            image_first_layer image_num_layers image_mipmap =
          Except.error (CheckCopyBufferImageError.BufferTooSmall
            (required_len_for_format image.format image_size image_num_layers)
            buffer.len) ↔
        required_len_for_format image.format image_size image_num_layers > buffer.len)) := by
  intro b i ty off sz fl nl mip dims hb2i hi2b hsmp hmip hl hx hy hz hacc
  have hred : check_copy_buffer_image b i ty off sz fl nl mip =
      (if required_len_for_format i.format sz nl > b.len then
        Except.error (CheckCopyBufferImageError.BufferTooSmall
          (required_len_for_format i.format sz nl) b.len)
      else Except.ok ()) := by
    unfold check_copy_buffer_image
    cases ty
    · obtain ⟨hbs, hid⟩ := hb2i rfl
      simp only [hbs, hid, hsmp, hmip, hacc]
      simp only [Bool.true_eq_false, if_false, ne_eq, not_true_eq_false, if_neg]
      rw [if_neg hl, if_neg hx, if_neg hy, if_neg hz]
    · obtain ⟨his, hbd⟩ := hi2b rfl
      simp only [his, hbd, hsmp, hmip, hacc]
      simp only [Bool.true_eq_false, if_false, ne_eq, not_true_eq_false, if_neg]
      rw [if_neg hl, if_neg hx, if_neg hy, if_neg hz]
  rw [hred]
  refine ⟨fun hlen => ?_, fun hlen => ?_, ?_⟩
  · rw [if_neg (by omega)]
  · rw [if_pos (by omega)]
  · constructor
    · intro hres
      by_contra hgt
      rw [if_neg hgt] at hres
      exact Except.noConfusion hres
    · intro hgt
      rw [if_pos hgt]

/-- Witness for C5: a 512x512 image with a 1-byte-per-texel format and a
buffer of exactly 262144 elements is accepted. -/
theorem buffer_capacity_spec_witness :
    check_copy_buffer_image ⟨262144, true, true⟩
      ⟨ImageDimensions.Dim2d 512 512 1, R4G4UnormPack8_u8, 1, ⟨true, true⟩⟩
      CheckCopyBufferImageTy.BufferToImage (0, 0, 0) (512, 512, 1) 0 1 0 =
      Except.ok () :=
  (buffer_capacity_spec ⟨262144, true, true⟩
    ⟨ImageDimensions.Dim2d 512 512 1, R4G4UnormPack8_u8, 1, ⟨true, true⟩⟩
    CheckCopyBufferImageTy.BufferToImage (0, 0, 0) (512, 512, 1) 0 1 0
    (ImageDimensions.Dim2d 512 512 1)
    (fun _ => ⟨rfl, rfl⟩) (fun h => by cases h) rfl (by decide)
    (by decide) (by decide) (by decide) (by decide) rfl).1 (by decide)

end Vulkano
